import Mathlib

/-!
Verification of the unitech-client cart provider and change-password form.

The cart provider (`CartProvider`) is embedded as pure functions over an
explicit state.  React state setters become functional updates; the
`useEffect` hook that fires after every change to `cartItems` (persist to
the localStorage key and recompute the total) is modelled by `runEffect`,
applied after each state change, so every operation denotes the settled
state once the effect has run.  The outcome of each HTTP call made through
the api client is an explicit boolean parameter (`true` = the promise
resolved, `false` = it rejected), and the presence of a session token
(`getToken()`) is a boolean parameter as well.  The localStorage slot for
the cart key is modelled by its parsed content: `none` when the key is
absent, `some items` when it holds the JSON serialization of `items`
(JSON.stringify is injective on this data and JSON.parse inverts it).
-/

namespace Unitech

/-- A cart line item as held in provider state and persisted to storage. -/
structure CartItem where
  id : Nat
  title : String
  price : Int
  quantity : Int
deriving Repr, DecidableEq

/-- `items.reduce((total, item) => total + (item.price * item.quantity), 0)`. -/
def computeTotal (items : List CartItem) : Int :=
  items.foldl (fun total item => total + item.price * item.quantity) 0

/-- Provider state: the in-memory `cartItems` list, the derived
`totalPrice`, and the parsed content of the localStorage cart key
(`none` when the key is absent). -/
structure CartState where
  cartItems : List CartItem
  totalPrice : Int
  storage : Option (List CartItem)
deriving Repr, DecidableEq

/-- The `useEffect` on `[cartItems]`: save the current list to local
storage and recompute the total price (`updateTotalPrice` in that
effect closes over the current list). -/
def runEffect (s : CartState) : CartState :=
  { s with storage := some s.cartItems, totalPrice := computeTotal s.cartItems }

/-- A product as passed to `addToCart`: `_id` is modelled by `altId`
(absent on local products), `name`/`title` may each be absent. -/
structure Product where
  id : Nat
  altId : Option Nat
  name : Option String
  title : Option String
  price : Int
deriving Repr, DecidableEq

/-- JavaScript `a || b` on optional strings: falls through on an absent
value and on the empty string (both falsy). -/
def jsOrStr (o : Option String) (d : String) : String :=
  match o with
  | some s => if s = "" then d else s
  | none => d

/-- `product._id || product.id` (a Mongo `_id` is never falsy when present). -/
def productKey (p : Product) : Nat :=
  p.altId.getD p.id

/-- The optimistic local update of `removeFromCart`: filter out every item
whose id equals `productId` and set the total from the filtered list.
This happens immediately, before any server response. -/
def removeOptimistic (s : CartState) (productId : Nat) : CartState :=
  let updatedItems := s.cartItems.filter (fun item => item.id != productId)
  { s with cartItems := updatedItems, totalPrice := computeTotal updatedItems }

/-- `removeFromCart(productId)`, settled: the optimistic removal (and its
effect) always happens; with a token the server DELETE runs and on failure
the previous items and their recomputed total are restored (and the
effect persists them again). -/
def removeFromCart (s : CartState) (productId : Nat) (token serverOk : Bool) :
    CartState :=
  let prevItems := s.cartItems
  let opt := runEffect (removeOptimistic s productId)
  if token then
    if serverOk then
      opt
    else
      runEffect { opt with cartItems := prevItems,
                           totalPrice := computeTotal prevItems }
  else
    opt

/-- `updateQuantity(productId, newQuantity)`, settled: a non-positive
quantity delegates to `removeFromCart`; otherwise the mapped list is
applied optimistically, and with a token a failing server PUT restores
the previous items. -/
def updateQuantity (s : CartState) (productId : Nat) (newQuantity : Int)
    (token serverOk : Bool) : CartState :=
  if newQuantity ≤ 0 then
    removeFromCart s productId token serverOk
  else
    let prevItems := s.cartItems
    let updatedItems := prevItems.map (fun item =>
      if item.id = productId then { item with quantity := newQuantity } else item)
    let opt := runEffect { s with cartItems := updatedItems,
                                  totalPrice := computeTotal updatedItems }
    if token then
      if serverOk then
        opt
      else
        runEffect { opt with cartItems := prevItems,
                             totalPrice := computeTotal prevItems }
    else
      opt

/-- `clearCart()`, settled: optimistic clear; with a token a failing
server DELETE restores the previous items; without a token the cart key
is removed and the effect then persists the (empty) list. -/
def clearCart (s : CartState) (token serverOk : Bool) : CartState :=
  let prevItems := s.cartItems
  let cleared : CartState := { s with cartItems := [], totalPrice := 0 }
  if token then
    if serverOk then
      runEffect cleared
    else
      runEffect { cleared with cartItems := prevItems,
                               totalPrice := computeTotal prevItems }
  else
    runEffect { cleared with storage := none }

/-- `addToCart(product, quantity)`, settled.  With a token and a
successful POST the list is updated locally from the server-shaped key
(`_id || id`); the stale-closure `updateTotalPrice()` call is superseded
by the effect, which recomputes from the new list.  Otherwise (guest, or
POST failed) the local fallback runs on `product.id`: merging into an
existing line removes it when the merged quantity is non-positive
(delegating to `removeFromCart`, whose own DELETE outcome is
`deleteOk`). -/
def addToCart (s : CartState) (p : Product) (quantity : Int)
    (token postOk deleteOk : Bool) : CartState :=
  if token && postOk then
    let key := productKey p
    match s.cartItems.find? (fun item => item.id == key) with
    | some existingItem =>
        let newQuantity := existingItem.quantity + quantity
        runEffect { s with cartItems := s.cartItems.map (fun item =>
          if item.id = key then { item with quantity := newQuantity } else item) }
    | none =>
        runEffect { s with cartItems := s.cartItems ++
          [{ id := key, title := jsOrStr p.name (jsOrStr p.title ""),
             price := p.price, quantity := quantity }] }
  else
    match s.cartItems.find? (fun item => item.id == p.id) with
    | some existingItem =>
        let newQuantity := existingItem.quantity + quantity
        if newQuantity ≤ 0 then
          removeFromCart s p.id token deleteOk
        else
          runEffect { s with cartItems := s.cartItems.map (fun item =>
            if item.id = p.id then { item with quantity := newQuantity } else item) }
    | none =>
        runEffect { s with cartItems := s.cartItems ++
          [{ id := p.id, title := (p.title).getD "", price := p.price,
             quantity := quantity }] }

/-- The value `checkout` resolves with. -/
structure CheckoutResult where
  success : Bool
  message : String
deriving Repr, DecidableEq

/-- `checkout()`: reject when the list is empty, otherwise resolve with
the success payload after running `clearCart` (whose token and server
outcome are passed through). -/
def checkout (s : CartState) (token serverOk : Bool) :
    Except String (CheckoutResult × CartState) :=
  if s.cartItems.length = 0 then
    Except.error "Cart is empty"
  else
    Except.ok ({ success := true, message := "Checkout successful!" },
               clearCart s token serverOk)

/-- A raw item of the server cart payload (`res.data.cart.items[i]`). -/
structure ServerRawItem where
  product_id : Nat
  name : Option String
  productName : Option String
  productTitle : Option String
  price : Int
  quantity : Int
deriving Repr, DecidableEq

/-- The mapping applied to each server item in `syncFromServer`. -/
def mapServerItem (i : ServerRawItem) : CartItem :=
  { id := i.product_id,
    title := jsOrStr i.name (jsOrStr i.productName (jsOrStr i.productTitle "")),
    price := i.price,
    quantity := i.quantity }

/-- The mount sequence: load the saved cart from storage when the key is
present (the `[cartItems]` effect then persists it and computes the
total), then `syncFromServer`: with a token and a response carrying an
items array, replace the list with the mapped server items only when the
cart key read back at that point is absent or holds an empty list.
`resp = none` covers both a rejected GET and a payload without
`data.cart.items`. -/
def mount (storage0 : Option (List CartItem)) (token : Bool)
    (resp : Option (List ServerRawItem)) : CartState :=
  let localItems := storage0.getD []
  let s1 := runEffect { cartItems := localItems, totalPrice := 0, storage := storage0 }
  if token then
    match resp with
    | some raw =>
        let serverItems := raw.map mapServerItem
        match s1.storage with
        | none => runEffect { s1 with cartItems := serverItems }
        | some localCart =>
            if localCart.length = 0 then
              runEffect { s1 with cartItems := serverItems }
            else
              s1
    | none => s1
  else
    s1

/-! The change-password form.  `formData` is indexed by the three field
names; the component `errors` state maps a field to its message, with the
empty string standing for a cleared/absent entry (JavaScript treats both
`undefined` and `''` as falsy where `errors` is consulted).
`validateForm`'s fresh `newErrors` object is modelled with `Option
String` per field, `none` when the key was never set, so that
`Object.keys(newErrors).length === 0` is exactly "all fields `none`". -/

/-- The three form fields. -/
inductive Field where
  | currentPassword
  | newPassword
  | confirmPassword
deriving Repr, DecidableEq

/-- The `formData` state object. -/
structure FormData where
  currentPassword : String
  newPassword : String
  confirmPassword : String
deriving Repr, DecidableEq

/-- Read a field of `formData`. -/
def FormData.get (fd : FormData) (f : Field) : String :=
  match f with
  | Field.currentPassword => fd.currentPassword
  | Field.newPassword => fd.newPassword
  | Field.confirmPassword => fd.confirmPassword

/-- `setFormData(prev => ({ ...prev, [name]: value }))`. -/
def FormData.set (fd : FormData) (f : Field) (v : String) : FormData :=
  match f with
  | Field.currentPassword => { fd with currentPassword := v }
  | Field.newPassword => { fd with newPassword := v }
  | Field.confirmPassword => { fd with confirmPassword := v }

/-- The fresh `newErrors` object built by `validateForm`: `none` for a
key that was never assigned. -/
structure FormErrors where
  currentPassword : Option String
  newPassword : Option String
  confirmPassword : Option String
deriving Repr, DecidableEq

/-- The regex test `/(?=.*[a-z])(?=.*[A-Z])(?=.*\d)/.test(pw)`:
at least one ASCII lowercase letter, one uppercase letter, one digit. -/
def passwordComplexity (pw : String) : Bool :=
  pw.data.any Char.isLower && pw.data.any Char.isUpper && pw.data.any Char.isDigit

/-- `validateForm`'s error computation over the current `formData`. -/
def validateForm (fd : FormData) : FormErrors :=
  let cur : Option String :=
    if fd.currentPassword = "" then some "Current password is required" else none
  let nw : Option String :=
    if fd.newPassword = "" then some "New password is required"
    else if fd.newPassword.length < 8 then
      some "Password must be at least 8 characters long"
    else if ¬ passwordComplexity fd.newPassword then
      some "Password must contain at least one uppercase letter, one lowercase letter, and one number"
    else none
  let cf : Option String :=
    if fd.confirmPassword = "" then some "Please confirm your new password"
    else if fd.newPassword ≠ fd.confirmPassword then some "Passwords do not match"
    else none
  { currentPassword := cur, newPassword := nw, confirmPassword := cf }

/-- `Object.keys(newErrors).length === 0`: the boolean `validateForm`
returns. -/
def validateFormOk (fd : FormData) : Bool :=
  let e := validateForm fd
  e.currentPassword.isNone && e.newPassword.isNone && e.confirmPassword.isNone

/-- The component `errors` state: message per field, `""` = no error. -/
abbrev ErrorsState : Type := Field → String

/-- `handleChange` on the field named `n` with new value `v`: update
`formData[n]`, and when `errors[n]` is truthy clear that entry. -/
def handleChange (n : Field) (v : String) (fd : FormData) (er : ErrorsState) :
    FormData × ErrorsState :=
  let fd' := fd.set n v
  let er' : ErrorsState :=
    if er n ≠ "" then (fun m => if m = n then "" else er m) else er
  (fd', er')

/-- The submission-visible state touched by `handleSubmit`. -/
structure SubmitState where
  formData : FormData
  success : String
  error : String
deriving Repr, DecidableEq

/-- `handleSubmit`, settled: clear both messages; stop if validation
fails; otherwise the awaited promise is a bare `setTimeout` that always
resolves — there is no backend call and nothing in the try block can
reject — so the success message is set and the fields reset.  The catch
branch has no representation because it is unreachable. -/
def handleSubmit (st : SubmitState) : SubmitState :=
  let cleared := { st with error := "", success := "" }
  if validateFormOk st.formData then
    { cleared with
        success := "Password changed successfully!",
        formData := { currentPassword := "", newPassword := "", confirmPassword := "" } }
  else
    cleared

/-! Helper lemmas: every settled operation ends in a `runEffect`, so the
derived total and the persisted copy agree with the current list. -/

/-- The invariant the `[cartItems]` effect re-establishes. -/
def SettledInv (s : CartState) : Prop :=
  s.totalPrice = computeTotal s.cartItems ∧ s.storage = some s.cartItems

lemma settledInv_runEffect (s : CartState) : SettledInv (runEffect s) :=
  ⟨rfl, rfl⟩

lemma settledInv_removeFromCart (s : CartState) (pid : Nat)
    (token serverOk : Bool) : SettledInv (removeFromCart s pid token serverOk) := by
  unfold removeFromCart
  cases token <;> cases serverOk <;> simp <;> exact ⟨rfl, rfl⟩

lemma settledInv_updateQuantity (s : CartState) (pid : Nat) (nq : Int)
    (token serverOk : Bool) : SettledInv (updateQuantity s pid nq token serverOk) := by
  unfold updateQuantity
  by_cases h : nq ≤ 0
  · simpa [h] using settledInv_removeFromCart s pid token serverOk
  · cases token <;> cases serverOk <;> simp [h] <;> exact ⟨rfl, rfl⟩

lemma settledInv_clearCart (s : CartState) (token serverOk : Bool) :
    SettledInv (clearCart s token serverOk) := by
  unfold clearCart
  cases token <;> cases serverOk <;> simp <;> exact ⟨rfl, rfl⟩

lemma settledInv_addToCart (s : CartState) (p : Product) (q : Int)
    (token postOk deleteOk : Bool) :
    SettledInv (addToCart s p q token postOk deleteOk) := by
  unfold addToCart
  by_cases h : (token && postOk) = true
  · simp only [h, if_true]
    cases s.cartItems.find? (fun item => item.id == productKey p) <;>
      exact ⟨rfl, rfl⟩
  · simp only [h, if_false, Bool.false_eq_true]
    cases hfind : s.cartItems.find? (fun item => item.id == p.id) with
    | none => exact ⟨rfl, rfl⟩
    | some existingItem =>
        by_cases hq : existingItem.quantity + q ≤ 0
        · simpa [hq] using settledInv_removeFromCart s p.id token deleteOk
        · simp [hq]
          exact ⟨rfl, rfl⟩

lemma settledInv_mount (storage0 : Option (List CartItem)) (token : Bool)
    (resp : Option (List ServerRawItem)) : SettledInv (mount storage0 token resp) := by
  cases token with
  | false => exact ⟨rfl, rfl⟩
  | true =>
      cases resp with
      | none => exact ⟨rfl, rfl⟩
      | some raw =>
          unfold SettledInv mount
          by_cases h : (storage0.getD []).length = 0 <;> simp [runEffect, h]

/-! Claim theorems. -/

/-- C1: for every cart state, when the server call made by an
authenticated `removeFromCart`, `updateQuantity` or `clearCart` fails,
the operation rolls back: `cartItems` is restored to the exact list it
held before the operation and `totalPrice` to the sum of price times
quantity over that list; hence when the total already equalled that sum,
the observable cart state (items and total) is unchanged on error. -/
theorem rollback_on_server_failure (s : CartState) (pid : Nat) (nq : Int) :
    ((removeFromCart s pid true false).cartItems = s.cartItems
      ∧ (removeFromCart s pid true false).totalPrice = computeTotal s.cartItems)
  ∧ ((updateQuantity s pid nq true false).cartItems = s.cartItems
      ∧ (updateQuantity s pid nq true false).totalPrice = computeTotal s.cartItems)
  ∧ ((clearCart s true false).cartItems = s.cartItems
      ∧ (clearCart s true false).totalPrice = computeTotal s.cartItems)
  ∧ (s.totalPrice = computeTotal s.cartItems →
       (removeFromCart s pid true false).totalPrice = s.totalPrice
       ∧ (updateQuantity s pid nq true false).totalPrice = s.totalPrice
       ∧ (clearCart s true false).totalPrice = s.totalPrice) := by
  have hu : (updateQuantity s pid nq true false).cartItems = s.cartItems
      ∧ (updateQuantity s pid nq true false).totalPrice = computeTotal s.cartItems := by
    by_cases h : nq ≤ 0 <;>
      simp [updateQuantity, removeFromCart, removeOptimistic, runEffect, h]
  have hr : (removeFromCart s pid true false).cartItems = s.cartItems
      ∧ (removeFromCart s pid true false).totalPrice = computeTotal s.cartItems := by
    simp [removeFromCart, removeOptimistic, runEffect]
  have hc : (clearCart s true false).cartItems = s.cartItems
      ∧ (clearCart s true false).totalPrice = computeTotal s.cartItems := by
    simp [clearCart, runEffect]
  exact ⟨hr, hu, hc, fun hinv =>
    ⟨hr.2.trans hinv.symm, hu.2.trans hinv.symm, hc.2.trans hinv.symm⟩⟩

/-- C1 witness: a concrete authenticated cart on which each failing
operation leaves the items and the total unchanged. -/
theorem rollback_on_server_failure_witness :
    ((removeFromCart ⟨[⟨1, "t", 5, 2⟩], 10, some [⟨1, "t", 5, 2⟩]⟩ 1 true false).cartItems
        = [⟨1, "t", 5, 2⟩]
      ∧ (removeFromCart ⟨[⟨1, "t", 5, 2⟩], 10, some [⟨1, "t", 5, 2⟩]⟩ 1 true false).totalPrice
        = 10)
  ∧ (updateQuantity ⟨[⟨1, "t", 5, 2⟩], 10, some [⟨1, "t", 5, 2⟩]⟩ 1 7 true false).totalPrice
        = 10
  ∧ (clearCart ⟨[⟨1, "t", 5, 2⟩], 10, some [⟨1, "t", 5, 2⟩]⟩ true false).totalPrice = 10 := by
  have h := rollback_on_server_failure ⟨[⟨1, "t", 5, 2⟩], 10, some [⟨1, "t", 5, 2⟩]⟩ 1 7
  have hinv := h.2.2.2 (by decide)
  exact ⟨⟨h.1.1, hinv.1⟩, hinv.2.1, hinv.2.2⟩

/-- C3: after every settled cart mutation the total price equals the sum
of price times quantity over the resulting items (the `[cartItems]`
effect recomputes it after each mutation). -/
theorem totalPrice_recomputed_after_mutation (s : CartState) (p : Product)
    (q nq : Int) (pid : Nat) (token postOk deleteOk serverOk : Bool) :
    (addToCart s p q token postOk deleteOk).totalPrice
        = computeTotal (addToCart s p q token postOk deleteOk).cartItems
  ∧ (removeFromCart s pid token serverOk).totalPrice
        = computeTotal (removeFromCart s pid token serverOk).cartItems
  ∧ (updateQuantity s pid nq token serverOk).totalPrice
        = computeTotal (updateQuantity s pid nq token serverOk).cartItems
  ∧ (clearCart s token serverOk).totalPrice
        = computeTotal (clearCart s token serverOk).cartItems :=
  ⟨(settledInv_addToCart s p q token postOk deleteOk).1,
   (settledInv_removeFromCart s pid token serverOk).1,
   (settledInv_updateQuantity s pid nq token serverOk).1,
   (settledInv_clearCart s token serverOk).1⟩

/-- C5: after every settled change to `cartItems` — any mutation and the
mount sequence — the local-storage cart key holds (the parsed form of)
exactly the current `cartItems` list. -/
theorem storage_mirrors_cartItems (s : CartState) (p : Product)
    (q nq : Int) (pid : Nat) (token postOk deleteOk serverOk : Bool)
    (storage0 : Option (List CartItem)) (resp : Option (List ServerRawItem)) :
    (addToCart s p q token postOk deleteOk).storage
        = some (addToCart s p q token postOk deleteOk).cartItems
  ∧ (removeFromCart s pid token serverOk).storage
        = some (removeFromCart s pid token serverOk).cartItems
  ∧ (updateQuantity s pid nq token serverOk).storage
        = some (updateQuantity s pid nq token serverOk).cartItems
  ∧ (clearCart s token serverOk).storage
        = some (clearCart s token serverOk).cartItems
  ∧ (mount storage0 token resp).storage
        = some (mount storage0 token resp).cartItems :=
  ⟨(settledInv_addToCart s p q token postOk deleteOk).2,
   (settledInv_removeFromCart s pid token serverOk).2,
   (settledInv_updateQuantity s pid nq token serverOk).2,
   (settledInv_clearCart s token serverOk).2,
   (settledInv_mount storage0 token resp).2⟩

/-- C6: `removeFromCart` updates optimistically: before any server
response the list becomes the previous list with every item of the given
id removed — a sublist of the original, containing exactly the items
whose id differs — and the total becomes the sum over that filtered
list. -/
theorem removeFromCart_optimistic_update (s : CartState) (pid : Nat) :
    (removeOptimistic s pid).cartItems
        = s.cartItems.filter (fun item => item.id != pid)
  ∧ (removeOptimistic s pid).totalPrice
        = computeTotal ((removeOptimistic s pid).cartItems)
  ∧ List.Sublist (removeOptimistic s pid).cartItems s.cartItems
  ∧ (∀ item, item ∈ (removeOptimistic s pid).cartItems
        ↔ (item ∈ s.cartItems ∧ item.id ≠ pid)) := by
  refine ⟨rfl, rfl, List.filter_sublist _, fun item => ?_⟩
  simp [removeOptimistic, List.mem_filter]

/-- C2: on mount the provider first loads the saved cart (when the
key is absent the list stays empty); with a token and a server cart
response, the mapped server items replace the list only when the stored
cart is absent or empty, and every non-empty stored cart is kept with
the server cart not applied. -/
theorem mount_prefers_nonempty_local (storage0 : Option (List CartItem))
    (token : Bool) (resp : Option (List ServerRawItem))
    (raw : List ServerRawItem) :
    ((token = false ∨ resp = none) →
        (mount storage0 token resp).cartItems = storage0.getD [])
  ∧ ((storage0 = none ∨ storage0 = some []) →
        (mount storage0 true (some raw)).cartItems = raw.map mapServerItem)
  ∧ (∀ l : List CartItem, storage0 = some l → l ≠ [] →
        (mount storage0 true (some raw)).cartItems = l) := by
  refine ⟨?_, ?_, ?_⟩
  · rintro (rfl | rfl)
    · rfl
    · cases token <;> rfl
  · rintro (rfl | rfl) <;> rfl
  · rintro l rfl hl
    have hlen : ¬ l.length = 0 := by simpa [List.length_eq_zero] using hl
    simp [mount, runEffect, hlen]

/-- C2 witness: a mount without server response keeps the stored cart; a
mount with no stored cart takes the mapped server items; a mount with a
non-empty stored cart ignores the server items. -/
theorem mount_prefers_nonempty_local_witness :
    (mount (some [⟨1, "a", 2, 3⟩]) false none).cartItems
        = (some [CartItem.mk 1 "a" 2 3]).getD []
  ∧ (mount none true (some [⟨7, some "n", none, none, 4, 5⟩])).cartItems
        = [ServerRawItem.mk 7 (some "n") none none 4 5].map mapServerItem
  ∧ (mount (some [⟨1, "a", 2, 3⟩]) true (some [⟨7, some "n", none, none, 4, 5⟩])).cartItems
        = [CartItem.mk 1 "a" 2 3] := by
  refine ⟨?_, ?_, ?_⟩
  · exact (mount_prefers_nonempty_local (some [⟨1, "a", 2, 3⟩]) false none []).1
      (Or.inl rfl)
  · exact (mount_prefers_nonempty_local none true
      (some [⟨7, some "n", none, none, 4, 5⟩]) [⟨7, some "n", none, none, 4, 5⟩]).2.1
      (Or.inl rfl)
  · exact (mount_prefers_nonempty_local (some [⟨1, "a", 2, 3⟩]) true
      (some [⟨7, some "n", none, none, 4, 5⟩]) [⟨7, some "n", none, none, 4, 5⟩]).2.2
      [⟨1, "a", 2, 3⟩] rfl (by simp)

lemma validateForm_current_none (fd : FormData) :
    (validateForm fd).currentPassword = none ↔ fd.currentPassword ≠ "" := by
  unfold validateForm
  by_cases h : fd.currentPassword = "" <;> simp [h]

lemma validateForm_new_none (fd : FormData) :
    (validateForm fd).newPassword = none ↔
      (fd.newPassword ≠ "" ∧ 8 ≤ fd.newPassword.length
        ∧ passwordComplexity fd.newPassword = true) := by
  unfold validateForm
  by_cases h2 : fd.newPassword = "" <;>
  by_cases h3 : fd.newPassword.length < 8 <;>
  by_cases h4 : passwordComplexity fd.newPassword = true <;>
    simp [h2, h3, h4]
  all_goals omega

lemma validateForm_confirm_none (fd : FormData) :
    (validateForm fd).confirmPassword = none ↔
      (fd.confirmPassword ≠ "" ∧ fd.newPassword = fd.confirmPassword) := by
  unfold validateForm
  by_cases h5 : fd.confirmPassword = "" <;>
  by_cases h6 : fd.newPassword = fd.confirmPassword <;> simp [h5, h6]

/-- C4: `validateForm` succeeds — returns true, with no field errors —
iff the current password is non-empty; the new password is non-empty,
at least 8 characters long, and contains a lowercase letter, an
uppercase letter and a digit; and the confirmation is non-empty and
equal to the new password. -/
theorem validateForm_characterization (fd : FormData) :
    (validateFormOk fd = true ↔
      (fd.currentPassword ≠ ""
        ∧ fd.newPassword ≠ ""
        ∧ 8 ≤ fd.newPassword.length
        ∧ fd.newPassword.data.any Char.isLower = true
        ∧ fd.newPassword.data.any Char.isUpper = true
        ∧ fd.newPassword.data.any Char.isDigit = true
        ∧ fd.confirmPassword ≠ ""
        ∧ fd.confirmPassword = fd.newPassword))
  ∧ (validateFormOk fd = true ↔ validateForm fd = ⟨none, none, none⟩) := by
  have hc := validateForm_current_none fd
  have hn := validateForm_new_none fd
  have hf := validateForm_confirm_none fd
  simp only [passwordComplexity, Bool.and_eq_true] at hn
  constructor
  · simp only [validateFormOk, Bool.and_eq_true, Option.isNone_iff_eq_none]
    rw [hc, hn, hf]
    constructor
    · rintro ⟨⟨h1, h2, h3, h4, h5⟩, h6, h7⟩
      exact ⟨h1, h2, h3, h4.1, h4.2, h5, h6, h7.symm⟩
    · rintro ⟨h1, h2, h3, h4, h5, h6, h7, h8⟩
      exact ⟨⟨h1, h2, h3, ⟨h4, h5⟩, h6⟩, h7, h8.symm⟩
  · simp only [validateFormOk, Bool.and_eq_true, Option.isNone_iff_eq_none]
    rcases hE : validateForm fd with ⟨ec, en, ef⟩
    simp [FormErrors.mk.injEq, and_assoc]

/-- C7: for every form state passing validation, `handleSubmit` reaches
the success branch — no backend call is made, the awaited promise always
resolves — setting the success message and resetting the three fields;
the error message ends empty because the catch branch is unreachable. -/
theorem handleSubmit_success (st : SubmitState)
    (h : validateFormOk st.formData = true) :
    handleSubmit st
      = { formData := { currentPassword := "", newPassword := "", confirmPassword := "" },
          success := "Password changed successfully!",
          error := "" } := by
  simp [handleSubmit, h]

/-- C7 witness: a concrete valid submission lands in the success state. -/
theorem handleSubmit_success_witness :
    handleSubmit ⟨⟨"x", "Abcdefg1", "Abcdefg1"⟩, "", "old error"⟩
      = ⟨⟨"", "", ""⟩, "Password changed successfully!", ""⟩ :=
  handleSubmit_success ⟨⟨"x", "Abcdefg1", "Abcdefg1"⟩, "", "old error"⟩ (by decide)

/-- C8 counterexample: on a one-item cart with a session token whose
server clear fails, `checkout` resolves with the success payload yet the
resulting cart still holds the item — refuting that every non-empty cart
is cleared. -/
theorem checkout_counterexample :
    checkout ⟨[⟨1, "w", 2, 1⟩], 2, some [⟨1, "w", 2, 1⟩]⟩ true false
        = Except.ok ({ success := true, message := "Checkout successful!" },
            ⟨[⟨1, "w", 2, 1⟩], 2, some [⟨1, "w", 2, 1⟩]⟩)
    ∧ (checkout ⟨[⟨1, "w", 2, 1⟩], 2, some [⟨1, "w", 2, 1⟩]⟩ true false)
        ≠ Except.ok ({ success := true, message := "Checkout successful!" },
            ⟨[], 0, some []⟩) := by
  constructor
  · rfl
  · intro hcontra
    simp [checkout, clearCart, runEffect, computeTotal] at hcontra

/-- C8 amended: `checkout` rejects with 'Cart is empty' exactly on the
empty cart; on a non-empty cart it resolves with the success payload
after running `clearCart`, which leaves the cart empty unless a session
token is present and the server clear fails, in which case the previous
items are restored. -/
theorem checkout_spec (s : CartState) (token serverOk : Bool) :
    (s.cartItems = [] → checkout s token serverOk = Except.error "Cart is empty")
  ∧ (s.cartItems ≠ [] →
       checkout s token serverOk
         = Except.ok ({ success := true, message := "Checkout successful!" },
             clearCart s token serverOk)
       ∧ ((token = false ∨ serverOk = true) →
            (clearCart s token serverOk).cartItems = [])
       ∧ (token = true → serverOk = false →
            (clearCart s token serverOk).cartItems = s.cartItems)) := by
  constructor
  · intro h
    simp [checkout, h]
  · intro h
    have hlen : ¬ s.cartItems.length = 0 := by
      simpa [List.length_eq_zero] using h
    refine ⟨by simp [checkout, hlen], ?_, ?_⟩
    · rintro (rfl | rfl)
      · simp [clearCart, runEffect]
      · cases token <;> simp [clearCart, runEffect]
    · rintro rfl rfl
      simp [clearCart, runEffect]

/-- C8 witness: the empty cart rejects; a concrete guest cart resolves
with the success payload and ends cleared. -/
theorem checkout_spec_witness :
    checkout ⟨[], 0, none⟩ true true = Except.error "Cart is empty"
  ∧ checkout ⟨[⟨1, "w", 2, 1⟩], 2, none⟩ false true
      = Except.ok ({ success := true, message := "Checkout successful!" },
          clearCart ⟨[⟨1, "w", 2, 1⟩], 2, none⟩ false true)
  ∧ (clearCart ⟨[⟨1, "w", 2, 1⟩], 2, none⟩ false true).cartItems = [] := by
  have h1 := (checkout_spec ⟨[], 0, none⟩ true true).1 rfl
  have h2 := (checkout_spec ⟨[⟨1, "w", 2, 1⟩], 2, none⟩ false true).2 (by simp)
  exact ⟨h1, h2.1, h2.2.1 (Or.inl rfl)⟩

/-- C9: `updateQuantity` with a non-positive quantity behaves exactly as
`removeFromCart`; and in the guest path of `addToCart`, when the product
is already in the cart and the merged quantity is non-positive, the item
is removed (no item with that id remains) rather than kept with a
non-positive quantity. -/
theorem nonpositive_quantity_removes (s : CartState) (p : Product)
    (pid : Nat) (q : Int) (token serverOk postOk deleteOk : Bool) :
    (q ≤ 0 →
        updateQuantity s pid q token serverOk = removeFromCart s pid token serverOk)
  ∧ (∀ existingItem,
        s.cartItems.find? (fun item => item.id == p.id) = some existingItem →
        existingItem.quantity + q ≤ 0 →
        addToCart s p q false postOk deleteOk = removeFromCart s p.id false deleteOk
        ∧ ∀ item ∈ (addToCart s p q false postOk deleteOk).cartItems,
            item.id ≠ p.id) := by
  constructor
  · intro h
    simp [updateQuantity, h]
  · intro existingItem hfind hq
    have hadd : addToCart s p q false postOk deleteOk
        = removeFromCart s p.id false deleteOk := by
      simp [addToCart, hfind, hq]
    refine ⟨hadd, ?_⟩
    rw [hadd]
    intro item hmem
    have hfilter : item ∈ s.cartItems.filter (fun it => it.id != p.id) := by
      simpa [removeFromCart, removeOptimistic, runEffect] using hmem
    simpa using (List.mem_filter.mp hfilter).2

/-- C9 witness: updating a concrete cart line to quantity -3 equals
removing it, and guest-adding quantity -3 to a line holding 3 removes
the line. -/
theorem nonpositive_quantity_removes_witness :
    updateQuantity ⟨[⟨1, "a", 2, 3⟩], 6, none⟩ 1 (-3) false true
        = removeFromCart ⟨[⟨1, "a", 2, 3⟩], 6, none⟩ 1 false true
  ∧ addToCart ⟨[⟨1, "a", 2, 3⟩], 6, none⟩ ⟨1, none, none, none, 2⟩ (-3) false true true
        = removeFromCart ⟨[⟨1, "a", 2, 3⟩], 6, none⟩ 1 false true
  ∧ ∀ item ∈ (addToCart ⟨[⟨1, "a", 2, 3⟩], 6, none⟩ ⟨1, none, none, none, 2⟩
        (-3) false true true).cartItems, item.id ≠ 1 := by
  have h1 := (nonpositive_quantity_removes ⟨[⟨1, "a", 2, 3⟩], 6, none⟩
    ⟨1, none, none, none, 2⟩ 1 (-3) false true true true).1 (by decide)
  have h2 := (nonpositive_quantity_removes ⟨[⟨1, "a", 2, 3⟩], 6, none⟩
    ⟨1, none, none, none, 2⟩ 1 (-3) false true true true).2 ⟨1, "a", 2, 3⟩ rfl (by decide)
  exact ⟨h1, h2.1, h2.2⟩

/-- C10: `handleChange` on the field named `n` sets `formData[n]` to the
new value and leaves every other form field unchanged; it clears
`errors[n]` exactly when an error is recorded there, leaves every other
error entry unchanged, and leaves the whole error state untouched when
no error is recorded for `n`. -/
theorem handleChange_frame (n : Field) (v : String) (fd : FormData)
    (er : ErrorsState) :
    (handleChange n v fd er).1.get n = v
  ∧ (∀ m, m ≠ n → (handleChange n v fd er).1.get m = fd.get m)
  ∧ (er n ≠ "" → (handleChange n v fd er).2 n = "")
  ∧ (∀ m, m ≠ n → (handleChange n v fd er).2 m = er m)
  ∧ (er n = "" → (handleChange n v fd er).2 = er) := by
  refine ⟨?_, ?_, ?_, ?_, ?_⟩
  · cases n <;> rfl
  · intro m hm
    cases n <;> cases m <;>
      simp_all [handleChange, FormData.get, FormData.set]
  · intro h
    simp [handleChange, h]
  · intro m hm
    by_cases h : er n = ""
    · simp [handleChange, h]
    · simp [handleChange, h, hm]
  · intro h
    simp [handleChange, h]

/-- C10 witness: changing the new-password field updates only it and
clears only its recorded error; the current-password data and error
entries are untouched. -/
theorem handleChange_frame_witness :
    (handleChange Field.newPassword "abc" ⟨"1", "2", "3"⟩
        (fun _ => "err")).1.get Field.newPassword = "abc"
  ∧ (handleChange Field.newPassword "abc" ⟨"1", "2", "3"⟩
        (fun _ => "err")).1.get Field.currentPassword
      = (FormData.mk "1" "2" "3").get Field.currentPassword
  ∧ (handleChange Field.newPassword "abc" ⟨"1", "2", "3"⟩
        (fun _ => "err")).2 Field.newPassword = ""
  ∧ (handleChange Field.newPassword "abc" ⟨"1", "2", "3"⟩
        (fun _ => "err")).2 Field.currentPassword = "err" := by
  have h := handleChange_frame Field.newPassword "abc" ⟨"1", "2", "3"⟩ (fun _ => "err")
  exact ⟨h.1, h.2.1 Field.currentPassword (by decide), h.2.2.1 (by decide),
    h.2.2.2.1 Field.currentPassword (by decide)⟩

end Unitech
